import Mathlib

/-!
Shallow embedding of the MagicAPI ai-gateway core (src/proxy.rs,
src/providers/bedrock.rs) and proofs about its specified behaviour.

JSON values are modelled after serde_json: indexing a non-object or a
missing key yields `null`; a JSON number is stored either as an unsigned
integer (u64), a negative integer (i64), or a float (f64, modelled exactly
as a rational, which is faithful for every value the claims exercise).
HTTP header maps are modelled as ordered lists of (name, value) pairs with
lowercase names and visible-ASCII values (the representation `http::HeaderMap`
guarantees after parsing), `get` returning the first value for a name.
-/

namespace Gateway

/-- The gateway's error taxonomy (src/error.rs, as used by the sources). -/
inductive AppError where
  | UnsupportedProvider
  | MissingApiKey
  | InvalidHeader
  | InvalidMethod
  | InvalidRequestFormat
  | UnsupportedModel
  deriving DecidableEq

/-- A serde_json number: u64, negative i64, or f64 (modelled as `Rat`). -/
inductive JNum where
  | uint (n : Nat)
  | int (i : Int)
  | float (q : Rat)
  deriving DecidableEq

/-- A serde_json `Value`. Objects are ordered key/value lists; serde_json
maps have unique keys, and every statement below holds for arbitrary lists. -/
inductive Json where
  | null
  | bool (b : Bool)
  | num (n : JNum)
  | str (s : String)
  | arr (xs : List Json)
  | obj (fields : List (String × Json))

/-- First-match lookup in an object's field list (serde_json map lookup;
keys are unique in a real map, so first-match agrees with it). -/
def jsonLookup : List (String × Json) → String → Option Json
  | [], _ => none
  | (k, v) :: t, n => if k = n then some v else jsonLookup t n

namespace Json

/-- `value[key]` indexing on serde_json values: `Null` when the value is
not an object or the key is missing. -/
def idx (j : Json) (key : String) : Json :=
  match j with
  | .obj fields => (jsonLookup fields key).getD .null
  | _ => .null

/-- `Value::as_array`. -/
def as_array : Json → Option (List Json)
  | .arr xs => some xs
  | _ => none

/-- `Value::as_str`. -/
def as_str : Json → Option String
  | .str s => some s
  | _ => none

/-- `Value::as_u64`: only a number stored as a u64 qualifies (a float such
as `5.0` or a negative integer yields `None` in serde_json). -/
def as_u64 : Json → Option Nat
  | .num (.uint n) => some n
  | _ => none

/-- `Value::as_f64`: any number converts (the u64-to-f64 rounding that can
occur above 2^53 is immaterial to the claims and modelled as exact). -/
def as_f64 : Json → Option Rat
  | .num (.uint n) => some (n : Rat)
  | .num (.int i) => some (i : Rat)
  | .num (.float q) => some q
  | _ => none

end Json

/-- Rust `str::contains`: substring test. -/
def strContains (hay sub : String) : Bool :=
  hay.toList.tails.any (fun t => sub.toList.isPrefixOf t)

/-- One role-marked segment of the Bedrock-Anthropic prompt
(src/providers/bedrock.rs lines 69-77): role defaults to "user" when
absent or not a string, content to "". -/
def promptSegment (msg : Json) : String :=
  let role := ((msg.idx "role").as_str).getD "user"
  let content := ((msg.idx "content").as_str).getD ""
  if role = "system" then "\n\nSystem: " ++ content
  else if role = "assistant" then "\n\nAssistant: " ++ content
  else "\n\nHuman: " ++ content

/-- `BedrockProvider::transform_request_body` (src/providers/bedrock.rs
lines 34-97): requires a `messages` array, defaults `model` to
"amazon.titan-text-premier-v1:0", then branches on the model string —
the "titan" test comes first, then "anthropic", else `UnsupportedModel`. -/
def transform_request_body (body : Json) : Except AppError Json :=
  match (body.idx "messages").as_array with
  | none => .error .InvalidRequestFormat
  | some messages =>
    let model := ((body.idx "model").as_str).getD "amazon.titan-text-premier-v1:0"
    if strContains model "titan" then
      let content := (messages.getLast?.bind (fun msg => (msg.idx "content").as_str)).getD ""
      .ok (.obj [
        ("inputText", .str content),
        ("textGenerationConfig", .obj [
          ("maxTokenCount", .num (.uint (((body.idx "max_tokens").as_u64).getD 1000))),
          ("temperature", .num (.float (((body.idx "temperature").as_f64).getD (7/10)))),
          ("topP", .num (.float (((body.idx "top_p").as_f64).getD 1))),
          ("stopSequences", .arr [])])])
    else if strContains model "anthropic" then
      .ok (.obj [
        ("prompt", .str (String.join (messages.map promptSegment))),
        ("max_tokens_to_sample", .num (.uint (((body.idx "max_tokens").as_u64).getD 1000))),
        ("temperature", .num (.float (((body.idx "temperature").as_f64).getD (7/10)))),
        ("top_p", .num (.float (((body.idx "top_p").as_f64).getD 1))),
        ("top_k", .num (.uint (((body.idx "top_k").as_u64).getD 250))),
        ("stop_sequences", .arr [.str "\n\nHuman:", .str "\n\nAssistant:"])])
    else .error .UnsupportedModel

/-- The body the forwarding engine would send upstream for a Bedrock call. -/
structure BedrockDispatch where
  outboundBody : Json

/-- Modelled from the spec: the forwarding engine's transform-then-dispatch
step for the Bedrock provider (the per-provider dispatch loop that calls
`prepare_request_body` is not among the given sources; only the provider is).
Per section 4.3 step 3, "Any transformation error aborts before network I/O
with the corresponding taxonomy code": a dispatch record is produced exactly
when the body transformation succeeds. -/
def bedrock_forward (body : Json) : Except AppError BedrockDispatch := do
  let transformed ← transform_request_body body
  .ok { outboundBody := transformed }

/-- `HeaderMap::get`: the first value stored for a name. Names are assumed
lowercase (the normal form `http::HeaderMap` keeps them in). -/
def headerGet : List (String × String) → String → Option String
  | [], _ => none
  | (k, v) :: t, n => if k = n then some v else headerGet t n

/-- `proxy_request_to_provider`'s base-URL resolution (src/proxy.rs
lines 40-48): the provider registry. -/
def resolve_base_url (provider : String) : Except AppError String :=
  match provider with
  | "openai" => .ok "https://api.openai.com"
  | "anthropic" => .ok "https://api.anthropic.com"
  | "groq" => .ok "https://api.groq.com/openai"
  | _ => .error .UnsupportedProvider

/-- `proxy_request_to_provider`'s per-provider header handling (src/proxy.rs
lines 76-125), reduced to the authorization value it sends upstream: the
`openai` arm tries `x-magicapi-api-key` (wrapping it in "Bearer ") and then
`authorization`; the `groq` arm tries only `authorization`; every other
provider — including "anthropic", which the base-URL match accepts — falls
to `UnsupportedProvider`. Header values are modelled as visible-ASCII
strings, on which the code's `to_str`/`from_str` conversions succeed. -/
def provider_auth_header (provider : String)
    (headers : List (String × String)) : Except AppError String :=
  match provider with
  | "openai" =>
    match headerGet headers "x-magicapi-api-key" with
    | some apiKey => .ok ("Bearer " ++ apiKey)
    | none =>
      match headerGet headers "authorization" with
      | some auth => .ok auth
      | none => .error .MissingApiKey
  | "groq" =>
    match headerGet headers "authorization" with
    | some auth => .ok auth
    | none => .error .MissingApiKey
  | _ => .error .UnsupportedProvider

/-- The outbound request the engine hands to the shared HTTP client. -/
structure OutboundCall where
  url : String
  authorization : String
  deriving DecidableEq

/-- Everything `proxy_request_to_provider` (src/proxy.rs lines 28-141) does
before network I/O, in source order: resolve the base URL, build the URL
from path and optional query, process provider headers. A `.ok` value is
the outbound call handed to the HTTP client; every `.error` is returned
before any outbound network activity. (The method re-parse between the two
steps cannot fail for a method axum accepted and is omitted.) -/
def proxy_pre_dispatch (provider : String) (headers : List (String × String))
    (path : String) (query : Option String) : Except AppError OutboundCall := do
  let baseUrl ← resolve_base_url provider
  let auth ← provider_auth_header provider headers
  .ok { url := baseUrl ++ path ++ ((query.map (fun q => "?" ++ q)).getD ""),
        authorization := auth }

/-- Removes every value stored under a name (what `HeaderMap::insert` does
to the old values of the key). -/
def removeName : List (String × String) → String → List (String × String)
  | [], _ => []
  | (k, v) :: t, n => if k = n then removeName t n else (k, v) :: removeName t n

/-- `HeaderMap::insert`: replaces all existing values for the name with the
single new value (keeping the entry's position), or appends a new entry. -/
def insertHeader : List (String × String) → String → String → List (String × String)
  | [], n, v => [(n, v)]
  | (k, w) :: t, n, v =>
    if k = n then (n, v) :: removeName t n
    else (k, w) :: insertHeader t n v

/-- The upstream-header copy loop (src/proxy.rs lines 153-164 and 193-204):
iterates the upstream map value by value — a multi-valued name is visited
once per value — and `insert`s each into a fresh map, so a later value
replaces an earlier one. Name/value byte conversions are modelled as
succeeding (names lowercase ASCII, values visible ASCII). -/
def copy_headers (upstream : List (String × String)) : List (String × String) :=
  upstream.foldl (fun acc p => insertHeader acc p.1 p.2) []

/-- An upstream response: status, headers, and the body as the chunk
sequence the client yields (bytes as naturals). -/
structure UpstreamResponse where
  status : Nat
  headers : List (String × String)
  bodyChunks : List (List Nat)

/-- The body relayed to the caller: either the upstream chunks one at a
time in arrival order, or one buffered byte string. -/
inductive RelayedBody where
  | stream (chunks : List (List Nat))
  | buffered (bytes : List Nat)

/-- The response relayed to the caller. `extensionHeaders` models the
`.extension(response_headers)` call of the streaming branch: a typed
extension attached to the response object, not sent on the wire. -/
structure RelayedResponse where
  status : Nat
  headers : List (String × String)
  extensionHeaders : Option (List (String × String))
  body : RelayedBody

/-- Streaming classification (src/proxy.rs lines 146-149): the upstream
`content-type` value, when present and readable, contains
"text/event-stream". -/
def is_streaming (resp : UpstreamResponse) : Bool :=
  match headerGet resp.headers "content-type" with
  | some ct => strContains ct "text/event-stream"
  | none => false

/-- Response relay (src/proxy.rs lines 146-219). Streaming: the outbound
response carries exactly the three forced headers, the copied upstream map
goes into an extension, and the chunks are forwarded in arrival order.
Buffered: the copied headers are set on the response and the concatenated
body is sent at once. Status is preserved in both branches. -/
def relay_response (resp : UpstreamResponse) : RelayedResponse :=
  if is_streaming resp then
    { status := resp.status,
      headers := [("content-type", "text/event-stream"),
                  ("cache-control", "no-cache"),
                  ("connection", "keep-alive")],
      extensionHeaders := some (copy_headers resp.headers),
      body := .stream resp.bodyChunks }
  else
    { status := resp.status,
      headers := copy_headers resp.headers,
      extensionHeaders := none,
      body := .buffered resp.bodyChunks.flatten }

/-- Number of entries stored under a name. -/
def countName : List (String × String) → String → Nat
  | [], _ => 0
  | (k, _) :: t, n => (if k = n then 1 else 0) + countName t n

/-- A streaming upstream response carrying an extra upstream header. -/
def c3resp : UpstreamResponse :=
  { status := 200,
    headers := [("content-type", "text/event-stream"), ("x-request-id", "42")],
    bodyChunks := [[104, 105], [33]] }

/-- The spec's Titan scenario input. -/
def c4body : Json :=
  .obj [("model", .str "amazon.titan-text-premier-v1:0"),
        ("messages", .arr [.obj [("role", .str "user"), ("content", .str "hi")]]),
        ("max_tokens", .num (.uint 50))]

/-- A body whose model string contains both "titan" and "anthropic". -/
def c5body : Json :=
  .obj [("model", .str "titananthropic"),
        ("messages", .arr [.obj [("role", .str "user"), ("content", .str "hi")]])]

/-- What the code produces for `c5body`: a Titan-format body. -/
def c5titanOut : Json :=
  .obj [("inputText", .str "hi"),
        ("textGenerationConfig", .obj [
          ("maxTokenCount", .num (.uint 1000)),
          ("temperature", .num (.float (7/10))),
          ("topP", .num (.float 1)),
          ("stopSequences", .arr [])])]

/-- The spec's Bedrock-Anthropic scenario input. -/
def c5anthBody : Json :=
  .obj [("model", .str "anthropic.claude-v2"),
        ("messages", .arr [
          .obj [("role", .str "system"), ("content", .str "be terse")],
          .obj [("role", .str "user"), ("content", .str "hi")]])]

end Gateway
namespace Gateway

/-- C1: the spec says every recognized provider name (openai, anthropic,
groq) passes provider resolution and is never rejected with
`UnsupportedProvider`. The base-URL match does resolve "anthropic", but the
header-handling match of `proxy_request_to_provider` only has arms for
"openai" and "groq" and its catch-all arm rejects "anthropic" with
`UnsupportedProvider` — contradicting the code's own registry arm, which is
otherwise dead. The rejection still happens before any outbound call. -/
theorem c1_anthropic_rejected_unsupported :
    resolve_base_url "anthropic" = .ok "https://api.anthropic.com" ∧
    proxy_pre_dispatch "anthropic" [("authorization", "Bearer sk-test")]
      "/v1/messages" none = .error .UnsupportedProvider ∧
    proxy_pre_dispatch "bogus" [("authorization", "Bearer sk-test")]
      "/v1/x" none = .error .UnsupportedProvider :=
  ⟨rfl, rfl, rfl⟩

/-- C2 counterexample: the claim says groq accepts the gateway API-key
header `x-magicapi-api-key`; in the code the groq arm only reads
`authorization`, so a groq request carrying only the gateway key is
rejected with `MissingApiKey`. -/
theorem c2_groq_gateway_key_rejected :
    provider_auth_header "groq" [("x-magicapi-api-key", "gw-key")] =
      .error .MissingApiKey ∧
    proxy_pre_dispatch "groq" [("x-magicapi-api-key", "gw-key")]
      "/v1/chat/completions" none = .error .MissingApiKey :=
  ⟨rfl, rfl⟩

/-- C2 (amended): for openai, authentication checks `x-magicapi-api-key`
first (wrapping the key in "Bearer ") and falls back to `authorization`;
for groq, only `authorization` is accepted and the gateway key header is
ignored. When the accepted headers are absent the request is rejected with
`MissingApiKey`, and every such rejection happens before any outbound
call is produced. -/
theorem c2_bearer_auth_priority (hs : List (String × String)) :
    (∀ k, headerGet hs "x-magicapi-api-key" = some k →
      provider_auth_header "openai" hs = .ok ("Bearer " ++ k)) ∧
    (headerGet hs "x-magicapi-api-key" = none →
      ∀ a, headerGet hs "authorization" = some a →
      provider_auth_header "openai" hs = .ok a) ∧
    (headerGet hs "x-magicapi-api-key" = none →
      headerGet hs "authorization" = none →
      provider_auth_header "openai" hs = .error .MissingApiKey) ∧
    (∀ a, headerGet hs "authorization" = some a →
      provider_auth_header "groq" hs = .ok a) ∧
    (headerGet hs "authorization" = none →
      provider_auth_header "groq" hs = .error .MissingApiKey) ∧
    (∀ p q e, provider_auth_header "openai" hs = .error e →
      proxy_pre_dispatch "openai" hs p q = .error e) ∧
    (∀ p q e, provider_auth_header "groq" hs = .error e →
      proxy_pre_dispatch "groq" hs p q = .error e) := by
  refine ⟨?_, ?_, ?_, ?_, ?_, ?_, ?_⟩
  · intro k hk
    simp [provider_auth_header, hk]
  · intro h1 a h2
    simp [provider_auth_header, h1, h2]
  · intro h1 h2
    simp [provider_auth_header, h1, h2]
  · intro a h
    simp [provider_auth_header, h]
  · intro h
    simp [provider_auth_header, h]
  · intro p q e he
    simp only [proxy_pre_dispatch, resolve_base_url, he]
    rfl
  · intro p q e he
    simp only [proxy_pre_dispatch, resolve_base_url, he]
    rfl

/-- C2 witness: concrete instance of the first clause of the amended claim. -/
theorem c2_bearer_auth_priority_witness :
    provider_auth_header "openai"
      [("x-magicapi-api-key", "k1"), ("authorization", "Bearer other")] =
      .ok "Bearer k1" :=
  (c2_bearer_auth_priority _).1 "k1" rfl

/-- C6: a body whose `messages` field is absent or not an array always
makes the Bedrock transformation fail with `InvalidRequestFormat`,
whatever the other fields hold, and no outbound dispatch is produced. -/
theorem c6_missing_messages_rejected (body : Json)
    (h : (body.idx "messages").as_array = none) :
    transform_request_body body = .error .InvalidRequestFormat ∧
    bedrock_forward body = .error .InvalidRequestFormat := by
  have h1 : transform_request_body body = .error .InvalidRequestFormat := by
    unfold transform_request_body
    rw [h]
  refine ⟨h1, ?_⟩
  unfold bedrock_forward
  rw [h1]
  rfl

/-- C6 witness: a body with a `model` and a non-array `messages` field. -/
theorem c6_missing_messages_rejected_witness :
    transform_request_body
      (.obj [("model", .str "amazon.titan-text-premier-v1:0"),
             ("messages", .str "not-an-array"),
             ("max_tokens", .num (.uint 5))]) =
      .error .InvalidRequestFormat :=
  (c6_missing_messages_rejected
    (.obj [("model", .str "amazon.titan-text-premier-v1:0"),
           ("messages", .str "not-an-array"),
           ("max_tokens", .num (.uint 5))]) rfl).1

/-- C7: a body with a `messages` array and a `model` string containing
neither "titan" nor "anthropic" always fails with `UnsupportedModel`. -/
theorem c7_unsupported_model (body : Json) (msgs : List Json) (m : String)
    (hmsgs : (body.idx "messages").as_array = some msgs)
    (hmodel : (body.idx "model").as_str = some m)
    (ht : strContains m "titan" = false)
    (ha : strContains m "anthropic" = false) :
    transform_request_body body = .error .UnsupportedModel := by
  simp [transform_request_body, hmsgs, hmodel, ht, ha]

/-- C7 witness: `model` "gpt-4o" is neither Titan- nor Anthropic-class. -/
theorem c7_unsupported_model_witness :
    transform_request_body
      (.obj [("model", .str "gpt-4o"), ("messages", .arr [])]) =
      .error .UnsupportedModel :=
  c7_unsupported_model (.obj [("model", .str "gpt-4o"), ("messages", .arr [])])
    [] "gpt-4o" rfl rfl rfl rfl

/-- C4: for a body with a non-empty `messages` array whose last message has
string content `s` and a `model` string containing "titan", the transformed
body is exactly `inputText = s` plus a `textGenerationConfig` with the four
fields `maxTokenCount`, `temperature`, `topP`, `stopSequences`, taking the
caller's `max_tokens` (as_u64), `temperature` and `top_p` (as_f64) when
they are present with the right type and the defaults 1000, 0.7, 1.0, []
exactly when they are absent or of the wrong type. -/
theorem c4_titan_transform (body lastMsg : Json) (msgs : List Json) (s m : String)
    (hmsgs : (body.idx "messages").as_array = some msgs)
    (hlast : msgs.getLast? = some lastMsg)
    (hcontent : (lastMsg.idx "content").as_str = some s)
    (hmodel : (body.idx "model").as_str = some m)
    (htitan : strContains m "titan" = true) :
    transform_request_body body = .ok (.obj [
      ("inputText", .str s),
      ("textGenerationConfig", .obj [
        ("maxTokenCount", .num (.uint (((body.idx "max_tokens").as_u64).getD 1000))),
        ("temperature", .num (.float (((body.idx "temperature").as_f64).getD (7/10)))),
        ("topP", .num (.float (((body.idx "top_p").as_f64).getD 1))),
        ("stopSequences", .arr [])])]) := by
  simp [transform_request_body, hmsgs, hmodel, htitan, hlast, hcontent]

/-- C4 witness: the spec's Titan scenario. -/
theorem c4_titan_transform_witness :
    transform_request_body c4body = .ok (.obj [
      ("inputText", .str "hi"),
      ("textGenerationConfig", .obj [
        ("maxTokenCount", .num (.uint 50)),
        ("temperature", .num (.float (7/10))),
        ("topP", .num (.float 1)),
        ("stopSequences", .arr [])])]) :=
  c4_titan_transform c4body (.obj [("role", .str "user"), ("content", .str "hi")])
    [.obj [("role", .str "user"), ("content", .str "hi")]]
    "hi" "amazon.titan-text-premier-v1:0" rfl rfl rfl rfl rfl

/-- C5 counterexample: the claim covers every model string containing
"anthropic", but the code tests "titan" first, so the model
"titananthropic" — which contains "anthropic" — is transformed as a Titan
request: the output has no `prompt` and no `max_tokens_to_sample` field. -/
theorem c5_titan_branch_wins :
    strContains "titananthropic" "anthropic" = true ∧
    transform_request_body c5body = .ok c5titanOut ∧
    c5titanOut.idx "prompt" = .null ∧
    c5titanOut.idx "max_tokens_to_sample" = .null :=
  ⟨rfl, rfl, rfl, rfl⟩

/-- C5 (amended): for a body with a `messages` array of N messages and a
`model` string that contains "anthropic" and does not contain "titan"
(the titan branch is tested first), the transformed `prompt` is the
concatenation in original order of exactly N role-marked segments —
role "system" marked "\n\nSystem: ", "assistant" "\n\nAssistant: ", any
other role "\n\nHuman: " — and the body carries `max_tokens_to_sample`,
`temperature`, `top_p`, `top_k` with defaults 1000, 0.7, 1.0, 250 when the
caller fields are absent, and the fixed `stop_sequences`. -/
theorem c5_anthropic_transform (body : Json) (msgs : List Json) (m : String)
    (hmsgs : (body.idx "messages").as_array = some msgs)
    (hmodel : (body.idx "model").as_str = some m)
    (hanth : strContains m "anthropic" = true)
    (htitan : strContains m "titan" = false) :
    transform_request_body body = .ok (.obj [
      ("prompt", .str (String.join (msgs.map promptSegment))),
      ("max_tokens_to_sample", .num (.uint (((body.idx "max_tokens").as_u64).getD 1000))),
      ("temperature", .num (.float (((body.idx "temperature").as_f64).getD (7/10)))),
      ("top_p", .num (.float (((body.idx "top_p").as_f64).getD 1))),
      ("top_k", .num (.uint (((body.idx "top_k").as_u64).getD 250))),
      ("stop_sequences", .arr [.str "\n\nHuman:", .str "\n\nAssistant:"])]) ∧
    (msgs.map promptSegment).length = msgs.length ∧
    (∀ msg c, (msg.idx "role").as_str = some "system" →
      (msg.idx "content").as_str = some c →
      promptSegment msg = "\n\nSystem: " ++ c) ∧
    (∀ msg c, (msg.idx "role").as_str = some "assistant" →
      (msg.idx "content").as_str = some c →
      promptSegment msg = "\n\nAssistant: " ++ c) ∧
    (∀ msg r c, (msg.idx "role").as_str = some r → r ≠ "system" →
      r ≠ "assistant" → (msg.idx "content").as_str = some c →
      promptSegment msg = "\n\nHuman: " ++ c) := by
  refine ⟨?_, List.length_map _ _, ?_, ?_, ?_⟩
  · simp [transform_request_body, hmsgs, hmodel, htitan, hanth]
  · intro msg c hr hc
    simp [promptSegment, hr, hc]
  · intro msg c hr hc
    simp [promptSegment, hr, hc]
  · intro msg r c hr hrs hra hc
    simp [promptSegment, hr, hc, hrs, hra]

/-- C5 witness: the spec's Bedrock-Anthropic scenario. -/
theorem c5_anthropic_transform_witness :
    transform_request_body c5anthBody = .ok (.obj [
      ("prompt", .str "\n\nSystem: be terse\n\nHuman: hi"),
      ("max_tokens_to_sample", .num (.uint 1000)),
      ("temperature", .num (.float (7/10))),
      ("top_p", .num (.float 1)),
      ("top_k", .num (.uint 250)),
      ("stop_sequences", .arr [.str "\n\nHuman:", .str "\n\nAssistant:"])]) :=
  (c5_anthropic_transform c5anthBody
    [.obj [("role", .str "system"), ("content", .str "be terse")],
     .obj [("role", .str "user"), ("content", .str "hi")]]
    "anthropic.claude-v2" rfl rfl rfl rfl).1

/-- C8: when `messages` is an array but `model` is absent or not a JSON
string, the model defaults to "amazon.titan-text-premier-v1:0" and the body
is transformed as a Titan-class request — in particular the transformation
does not fail with `UnsupportedModel`. -/
theorem c8_default_model_is_titan (body : Json) (msgs : List Json)
    (hmsgs : (body.idx "messages").as_array = some msgs)
    (hmodel : (body.idx "model").as_str = none) :
    transform_request_body body ≠ .error .UnsupportedModel ∧
    transform_request_body body = .ok (.obj [
      ("inputText",
        .str ((msgs.getLast?.bind (fun msg => (msg.idx "content").as_str)).getD "")),
      ("textGenerationConfig", .obj [
        ("maxTokenCount", .num (.uint (((body.idx "max_tokens").as_u64).getD 1000))),
        ("temperature", .num (.float (((body.idx "temperature").as_f64).getD (7/10)))),
        ("topP", .num (.float (((body.idx "top_p").as_f64).getD 1))),
        ("stopSequences", .arr [])])]) := by
  have hdef : strContains "amazon.titan-text-premier-v1:0" "titan" = true := rfl
  have heq : transform_request_body body = .ok (.obj [
      ("inputText",
        .str ((msgs.getLast?.bind (fun msg => (msg.idx "content").as_str)).getD "")),
      ("textGenerationConfig", .obj [
        ("maxTokenCount", .num (.uint (((body.idx "max_tokens").as_u64).getD 1000))),
        ("temperature", .num (.float (((body.idx "temperature").as_f64).getD (7/10)))),
        ("topP", .num (.float (((body.idx "top_p").as_f64).getD 1))),
        ("stopSequences", .arr [])])]) := by
    simp [transform_request_body, hmsgs, hmodel, hdef]
  refine ⟨?_, heq⟩
  rw [heq]
  intro hcontra
  cases hcontra

/-- C8 witness: a body whose `model` field is a number, not a string. -/
theorem c8_default_model_is_titan_witness :
    transform_request_body
      (.obj [("model", .num (.uint 3)),
             ("messages", .arr [.obj [("content", .str "hey")]])]) =
      .ok (.obj [
        ("inputText", .str "hey"),
        ("textGenerationConfig", .obj [
          ("maxTokenCount", .num (.uint 1000)),
          ("temperature", .num (.float (7/10))),
          ("topP", .num (.float 1)),
          ("stopSequences", .arr [])])]) :=
  (c8_default_model_is_titan
    (.obj [("model", .num (.uint 3)),
           ("messages", .arr [.obj [("content", .str "hey")]])])
    [.obj [("content", .str "hey")]] rfl rfl).2

/-- C9: a Titan-class body (its model string, after the default, contains
"titan") whose `messages` array is empty, or whose last message has no
string `content`, still transforms successfully, with `inputText` equal to
the empty string. -/
theorem c9_titan_empty_content (body : Json) (msgs : List Json)
    (hmsgs : (body.idx "messages").as_array = some msgs)
    (htitan : strContains
      (((body.idx "model").as_str).getD "amazon.titan-text-premier-v1:0")
      "titan" = true)
    (hempty : msgs = [] ∨
      ∃ lastMsg, msgs.getLast? = some lastMsg ∧
        (lastMsg.idx "content").as_str = none) :
    transform_request_body body = .ok (.obj [
      ("inputText", .str ""),
      ("textGenerationConfig", .obj [
        ("maxTokenCount", .num (.uint (((body.idx "max_tokens").as_u64).getD 1000))),
        ("temperature", .num (.float (((body.idx "temperature").as_f64).getD (7/10)))),
        ("topP", .num (.float (((body.idx "top_p").as_f64).getD 1))),
        ("stopSequences", .arr [])])]) := by
  have hnone : msgs.getLast?.bind (fun msg => (msg.idx "content").as_str) = none := by
    rcases hempty with h | ⟨lastMsg, h1, h2⟩
    · rw [h]; rfl
    · rw [h1, Option.some_bind, h2]
  simp [transform_request_body, hmsgs, htitan, hnone]

/-- C9 witness: a Titan body with an empty `messages` array. -/
theorem c9_titan_empty_content_witness :
    transform_request_body
      (.obj [("model", .str "amazon.titan-text-express-v1"),
             ("messages", .arr []),
             ("max_tokens", .num (.uint 8))]) =
      .ok (.obj [
        ("inputText", .str ""),
        ("textGenerationConfig", .obj [
          ("maxTokenCount", .num (.uint 8)),
          ("temperature", .num (.float (7/10))),
          ("topP", .num (.float 1)),
          ("stopSequences", .arr [])])]) :=
  c9_titan_empty_content
    (.obj [("model", .str "amazon.titan-text-express-v1"),
           ("messages", .arr []),
           ("max_tokens", .num (.uint 8))])
    [] rfl rfl (Or.inl rfl)

theorem headerGet_removeName_ne (m : List (String × String)) (n k : String)
    (h : k ≠ n) : headerGet (removeName m n) k = headerGet m k := by
  induction m with
  | nil => rfl
  | cons p t ih =>
    obtain ⟨a, v⟩ := p
    by_cases ha : a = n
    · subst ha
      simp [removeName, headerGet, ih, Ne.symm h]
    · simp [removeName, headerGet, ih, ha]

theorem countName_removeName_self (m : List (String × String)) (n : String) :
    countName (removeName m n) n = 0 := by
  induction m with
  | nil => rfl
  | cons p t ih =>
    obtain ⟨a, v⟩ := p
    by_cases ha : a = n
    · simp [removeName, ha, ih]
    · simp [removeName, countName, ha, ih]

theorem countName_removeName_ne (m : List (String × String)) (n k : String)
    (h : k ≠ n) : countName (removeName m n) k = countName m k := by
  induction m with
  | nil => rfl
  | cons p t ih =>
    obtain ⟨a, v⟩ := p
    by_cases ha : a = n
    · subst ha
      simp [removeName, countName, ih, Ne.symm h]
    · simp [removeName, countName, ha, ih]

theorem headerGet_insertHeader_self (m : List (String × String)) (n v : String) :
    headerGet (insertHeader m n v) n = some v := by
  induction m with
  | nil => simp [insertHeader, headerGet]
  | cons p t ih =>
    obtain ⟨a, w⟩ := p
    by_cases ha : a = n
    · simp [insertHeader, headerGet, ha]
    · simp [insertHeader, headerGet, ha, ih]

theorem headerGet_insertHeader_ne (m : List (String × String)) (n v k : String)
    (h : k ≠ n) : headerGet (insertHeader m n v) k = headerGet m k := by
  induction m with
  | nil => simp [insertHeader, headerGet, Ne.symm h]
  | cons p t ih =>
    obtain ⟨a, w⟩ := p
    by_cases ha : a = n
    · subst ha
      simp [insertHeader, headerGet, Ne.symm h,
        headerGet_removeName_ne t a k h]
    · simp [insertHeader, headerGet, ha, ih]

theorem countName_insertHeader_self (m : List (String × String)) (n v : String) :
    countName (insertHeader m n v) n = 1 := by
  induction m with
  | nil => simp [insertHeader, countName]
  | cons p t ih =>
    obtain ⟨a, w⟩ := p
    by_cases ha : a = n
    · simp [insertHeader, countName, ha, countName_removeName_self]
    · simp [insertHeader, countName, ha, ih]

theorem countName_insertHeader_ne (m : List (String × String)) (n v k : String)
    (h : k ≠ n) : countName (insertHeader m n v) k = countName m k := by
  induction m with
  | nil => simp [insertHeader, countName, Ne.symm h]
  | cons p t ih =>
    obtain ⟨a, w⟩ := p
    by_cases ha : a = n
    · subst ha
      simp [insertHeader, countName, Ne.symm h,
        countName_removeName_ne t a k h]
    · simp [insertHeader, countName, ha, ih]

theorem headerGet_append (a b : List (String × String)) (n : String) :
    headerGet (a ++ b) n =
      match headerGet a n with
      | some v => some v
      | none => headerGet b n := by
  induction a with
  | nil => rfl
  | cons p t ih =>
    obtain ⟨k, v⟩ := p
    by_cases hk : k = n
    · simp [headerGet, hk]
    · simp [headerGet, hk, ih]

theorem headerGet_copy_foldl (hs : List (String × String)) :
    ∀ (m : List (String × String)) (n : String),
      headerGet (hs.foldl (fun acc p => insertHeader acc p.1 p.2) m) n =
        match headerGet hs.reverse n with
        | some v => some v
        | none => headerGet m n := by
  induction hs with
  | nil => intro m n; rfl
  | cons p t ih =>
    intro m n
    obtain ⟨k, v⟩ := p
    rw [List.foldl_cons, ih, List.reverse_cons, headerGet_append]
    cases hgt : headerGet t.reverse n with
    | some w => rfl
    | none =>
      by_cases hk : k = n
      · subst hk
        simp [headerGet, headerGet_insertHeader_self]
      · simp [headerGet, hk,
          headerGet_insertHeader_ne m k v n (fun hnk => hk hnk.symm)]

theorem countName_copy_foldl (hs : List (String × String)) :
    ∀ (m : List (String × String)),
      (∀ k, countName m k ≤ 1) →
      ∀ k, countName (hs.foldl (fun acc p => insertHeader acc p.1 p.2) m) k ≤ 1 := by
  induction hs with
  | nil => intro m hm k; exact hm k
  | cons p t ih =>
    intro m hm k
    obtain ⟨a, v⟩ := p
    rw [List.foldl_cons]
    refine ih (insertHeader m a v) ?_ k
    intro k2
    by_cases hk : k2 = a
    · subst hk
      rw [countName_insertHeader_self]
    · rw [countName_insertHeader_ne m a v k2 hk]
      exact hm k2

/-- C10: in both relay branches the upstream headers are copied value by
value with `HeaderMap::insert`, so the copied map holds at most one value
per name, and the value kept for a name is the one of the last occurrence
in the upstream map (earlier values of a multi-valued name are discarded);
the streaming branch attaches the copied map as the response extension and
the buffered branch uses it as the response headers. -/
theorem c10_copied_headers_last_value_wins (resp : UpstreamResponse) (n : String) :
    countName (copy_headers resp.headers) n ≤ 1 ∧
    headerGet (copy_headers resp.headers) n = headerGet resp.headers.reverse n ∧
    (relay_response resp).extensionHeaders =
      (if is_streaming resp then some (copy_headers resp.headers) else none) ∧
    (relay_response resp).headers =
      (if is_streaming resp then
        [("content-type", "text/event-stream"),
         ("cache-control", "no-cache"),
         ("connection", "keep-alive")]
       else copy_headers resp.headers) := by
  refine ⟨?_, ?_, ?_, ?_⟩
  · exact countName_copy_foldl resp.headers [] (fun _ => Nat.zero_le 1) n
  · rw [copy_headers, headerGet_copy_foldl]
    cases headerGet resp.headers.reverse n with
    | some v => rfl
    | none => rfl
  · unfold relay_response
    by_cases h : is_streaming resp <;> simp [h]
  · unfold relay_response
    by_cases h : is_streaming resp <;> simp [h]

/-- C3 counterexample: the claim says a streaming response carries the
copied upstream headers together with the forced ones; in the code the
copied map only goes into a response *extension* (never serialized), so an
upstream header such as `x-request-id` is absent from the relayed
response's header map even though it was copied. -/
theorem c3_streaming_headers_not_carried :
    is_streaming c3resp = true ∧
    headerGet (copy_headers c3resp.headers) "x-request-id" = some "42" ∧
    headerGet (relay_response c3resp).headers "x-request-id" = none ∧
    (relay_response c3resp).extensionHeaders =
      some [("content-type", "text/event-stream"), ("x-request-id", "42")] :=
  ⟨rfl, rfl, rfl, rfl⟩

/-- C3 (amended): a response is classified streaming exactly when its
`content-type` value contains "text/event-stream"; a streaming response is
relayed chunk-by-chunk in arrival order with exactly the three forced
headers on the wire, the copied upstream map attached only as an internal
extension; any other response is buffered into one body and relayed with
the copied upstream headers. Status is preserved in both cases. -/
theorem c3_classification_and_relay (resp : UpstreamResponse) :
    (is_streaming resp = true ↔
      ∃ ct, headerGet resp.headers "content-type" = some ct ∧
            strContains ct "text/event-stream" = true) ∧
    (is_streaming resp = true →
      relay_response resp =
        { status := resp.status,
          headers := [("content-type", "text/event-stream"),
                      ("cache-control", "no-cache"),
                      ("connection", "keep-alive")],
          extensionHeaders := some (copy_headers resp.headers),
          body := .stream resp.bodyChunks }) ∧
    (is_streaming resp = false →
      relay_response resp =
        { status := resp.status,
          headers := copy_headers resp.headers,
          extensionHeaders := none,
          body := .buffered resp.bodyChunks.flatten }) := by
  refine ⟨?_, ?_, ?_⟩
  · unfold is_streaming
    cases h : headerGet resp.headers "content-type" with
    | none => simp [h]
    | some ct =>
      constructor
      · intro hh
        exact ⟨ct, rfl, hh⟩
      · rintro ⟨ct2, hct2, hc⟩
        rw [Option.some_inj.mp hct2]
        exact hc
  · intro h
    simp [relay_response, h]
  · intro h
    simp [relay_response, h]

/-- C3 witness: the relay of the concrete streaming response `c3resp`. -/
theorem c3_classification_and_relay_witness :
    relay_response c3resp =
      { status := 200,
        headers := [("content-type", "text/event-stream"),
                    ("cache-control", "no-cache"),
                    ("connection", "keep-alive")],
        extensionHeaders :=
          some [("content-type", "text/event-stream"), ("x-request-id", "42")],
        body := .stream [[104, 105], [33]] } :=
  (c3_classification_and_relay c3resp).2.1 rfl

end Gateway
